import Mathlib

/-!
Verification development for the pgrest repository: a shallow embedding of
the REST query formatting utilities (`restquery.go`) and of the transaction
propagation engine described in the specification, together with theorems
settling the specification's claims against those definitions.
-/

set_option maxHeartbeats 1000000

namespace Pgrest

/-- Modelled from the spec: the `Action` type of the REST query model. The
source file declaring the `Action` constants is absent from the sources
(only its test `TestAction` is present); the constants are modelled as the
standard additive flag encoding that the test's assertions require:
pairwise-distinct powers of two with `All` their sum. -/
abbrev Action := Nat

/-- Modelled from the spec: the `None` action constant (no action). -/
def None : Action := 0

/-- Modelled from the spec: the `Get` action flag. -/
def Get : Action := 1

/-- Modelled from the spec: the `Post` action flag. -/
def Post : Action := 2

/-- Modelled from the spec: the `Put` action flag. -/
def Put : Action := 4

/-- Modelled from the spec: the `Patch` action flag. -/
def Patch : Action := 8

/-- Modelled from the spec: the `Delete` action flag. -/
def Delete : Action := 16

/-- Modelled from the spec: the `All` action constant, the sum of the five
individual action flags. -/
def All : Action := Get + Post + Put + Patch + Delete

/-- Field structure from `restquery.go`. -/
structure Field where
  Name : String
deriving DecidableEq

/-- Method `(f *Field) String()` from `restquery.go`: returns the field name. -/
def Field.string (f : Field) : String := f.Name

/-- Sort structure from `restquery.go` (named `Sort` in the source; `Sort`
is a reserved word in Lean). -/
structure SortSpec where
  Name : String
  Asc : Bool
deriving DecidableEq

/-- Method `(s *Sort) String()` from `restquery.go`. -/
def SortSpec.string (s : SortSpec) : String :=
  if s.Asc then "asc(" ++ s.Name ++ ")" else "desc(" ++ s.Name ++ ")"

/-- Go's `%v` rendering of a `Field` value (plain struct printing, since the
`String()` method has a pointer receiver): `\x7bName\x7d`. -/
def fieldRepr (f : Field) : String := "\x7b" ++ f.Name ++ "\x7d"

/-- Go's `%v` rendering of a `Sort` value (plain struct printing). -/
def sortRepr (s : SortSpec) : String :=
  "\x7b" ++ s.Name ++ " " ++ (if s.Asc then "true" else "false") ++ "\x7d"

/-- Go's `%v` rendering of a slice: elements separated by spaces, in square
brackets. -/
def sliceRepr (elems : List String) : String :=
  "[" ++ String.intercalate " " elems ++ "]"

/-- RestQuery structure from `restquery.go`. `Offset` and `Limit` are
`uint64` in the source, modelled as `Nat`. -/
structure RestQuery where
  Action : Action
  Resource : String
  Key : String
  Body : String
  Offset : Nat
  Limit : Nat
  Fields : List Field
  Sorts : List SortSpec
deriving DecidableEq

/-- Method `(q *RestQuery) String()` from `restquery.go`: the keyed form
`%v: %v[%v] fields=%v` when `Key` is non-empty, otherwise
`%v: %v offset=%v limit=%v fields=%v sorts=%v`. -/
def RestQuery.string (q : RestQuery) : String :=
  if q.Key ≠ "" then
    toString q.Action ++ ": " ++ q.Resource ++ "[" ++ q.Key ++ "] fields="
      ++ sliceRepr (q.Fields.map fieldRepr)
  else
    toString q.Action ++ ": " ++ q.Resource ++ " offset=" ++ toString q.Offset
      ++ " limit=" ++ toString q.Limit ++ " fields="
      ++ sliceRepr (q.Fields.map fieldRepr)
      ++ " sorts=" ++ sliceRepr (q.Sorts.map sortRepr)

end Pgrest

namespace Transactional

/-!
Modelled from the spec: the transaction propagation engine. The engine's
implementation file is absent from the sources (only its test file
`transactional_test.go` is present), so the engine is modelled from the
specification: the database collaborator (`BeginTransaction`, `Commit`,
`Rollback`, `BeginSavepoint`, `ReleaseSavepoint`, `RollbackToSavepoint`),
the carrier with its optional active-transaction binding, the three
propagation policies, and `RunWithPropagation` / `Run` following the
specification's decision table. Rows written by units of work are modelled
as natural numbers; the database state additionally records observational
counters (commits, rollbacks, savepoints created/closed) used to state the
exactly-one-close invariant, and failure-injection flags for the commit and
rollback collaborator calls.
-/

/-- Modelled from the spec: the state of one open physical transaction —
an opaque handle identity, the uncommitted writes, the stack of open
savepoints (name paired with the length of `writes` when the savepoint was
created), and the per-transaction counter used for savepoint naming. -/
structure TxState where
  handle : Nat
  writes : List Nat
  savepoints : List (String × Nat)
  spCounter : Nat
deriving DecidableEq

/-- Modelled from the spec: the database collaborator's state — committed
rows, at most one open transaction, a fresh-handle source, observational
counters for close operations, and failure-injection flags for the commit
and rollback calls. -/
structure Db where
  committed : List Nat
  tx : Option TxState
  nextHandle : Nat
  commits : Nat
  rollbacks : Nat
  spCreated : Nat
  spClosed : Nat
  failCommit : Bool
  failRollback : Bool
deriving DecidableEq

/-- Modelled from the spec: the active transaction binding held by a
carrier — the transaction handle plus bookkeeping (nesting depth and the
stack of savepoint names). -/
structure Binding where
  handle : Nat
  depth : Nat
  savepointStack : List String
deriving DecidableEq

/-- Modelled from the spec: the carrier, holding at most one active
transaction binding. -/
structure Carrier where
  binding : Option Binding
deriving DecidableEq

/-- Modelled from the spec: the three propagation policies `Join`,
`Mandatory` and `Savepoint` (the source's test file calls `Join`
`Current`). -/
inductive Policy where
  | join
  | mandatory
  | savepoint
deriving DecidableEq

/-- Modelled from the spec: the engine's error taxonomy —
`NoActiveTransaction`, a business-logic error returned by `work`, a commit
failure, and the composed error reporting both a work failure and the
subsequent close-phase failure. -/
inductive TxErr where
  | noActiveTransaction
  | work (msg : String)
  | commitFailed (msg : String)
  | combined (workErr : TxErr) (closeMsg : String)
deriving DecidableEq

/-- Modelled from the spec: the engine's failure channel — the underlying
error together with a flag recording that the failure has already been
handled by a rollback-to-savepoint in an inner frame. Per the spec's
testable properties, when a nested savepoint frame fails the error still
propagates to the root caller but the root transaction is not rolled back
automatically by this failure; owners therefore close with a commit, not a
rollback, on an already-handled failure. This reproduces the repository's
tests `TestTransactionalSavepointOKSavepointKO` and
`TestTransactionalCurrentOKSavepointKO`, where the enclosing frame's work
returns the inner savepoint frame's error and the pre-savepoint row is
nevertheless visible afterwards. -/
structure Failure where
  err : TxErr
  handled : Bool
deriving DecidableEq

/-- Modelled from the spec: `BeginTransaction` — open a new physical
transaction with a fresh handle, no writes, no savepoints. -/
def beginTransaction (db : Db) : Db :=
  { db with tx := some ⟨db.nextHandle, [], [], 0⟩, nextHandle := db.nextHandle + 1 }

/-- Modelled from the spec: an insert performed by a unit of work through
the transaction handle — appends a row to the open transaction's writes
(appends directly to the committed rows when no transaction is open). -/
def insertRow (n : Nat) (db : Db) : Db :=
  match db.tx with
  | some t => { db with tx := some { t with writes := t.writes ++ [n] } }
  | none => { db with committed := db.committed ++ [n] }

/-- Modelled from the spec: `TxHandle.Commit` — make the transaction's
writes visible and close it; fails when the injection flag is set or no
transaction is open. -/
def commitTx (db : Db) : Db × Option String :=
  if db.failCommit then (db, some "commit failed")
  else
    match db.tx with
    | some t =>
      ({ db with committed := db.committed ++ t.writes, tx := none,
                 commits := db.commits + 1 }, none)
    | none => (db, some "no open transaction")

/-- Modelled from the spec: `TxHandle.Rollback` — discard the transaction's
writes and close it; fails when the injection flag is set or no transaction
is open. -/
def rollbackTx (db : Db) : Db × Option String :=
  if db.failRollback then (db, some "rollback failed")
  else
    match db.tx with
    | some _ => ({ db with tx := none, rollbacks := db.rollbacks + 1 }, none)
    | none => (db, some "no open transaction")

/-- Modelled from the spec: `TxHandle.BeginSavepoint(name)` — record a
named savepoint marking the current write position, bumping the naming
counter. -/
def beginSavepoint (name : String) (db : Db) : Db :=
  match db.tx with
  | some t =>
    { db with
      tx := some { t with savepoints := (name, t.writes.length) :: t.savepoints,
                          spCounter := t.spCounter + 1 },
      spCreated := db.spCreated + 1 }
  | none => db

/-- Remove the first savepoint entry with the given name. -/
def removeSp (name : String) : List (String × Nat) → List (String × Nat)
  | [] => []
  | (n, l) :: rest => if n = name then rest else (n, l) :: removeSp name rest

/-- Find the write position recorded for the first savepoint entry with the
given name. -/
def findSp (name : String) : List (String × Nat) → Option Nat
  | [] => none
  | (n, l) :: rest => if n = name then some l else findSp name rest

/-- Modelled from the spec: `TxHandle.ReleaseSavepoint(name)` — keep the
writes made since the savepoint as part of the enclosing transaction and
drop the savepoint entry. -/
def releaseSavepoint (name : String) (db : Db) : Db :=
  match db.tx with
  | some t =>
    { db with tx := some { t with savepoints := removeSp name t.savepoints },
              spClosed := db.spClosed + 1 }
  | none => db

/-- Modelled from the spec: `TxHandle.RollbackToSavepoint(name)` — discard
exactly the writes made since the savepoint was created, keep the enclosing
transaction open, and drop the savepoint entry. -/
def rollbackToSavepoint (name : String) (db : Db) : Db :=
  match db.tx with
  | some t =>
    match findSp name t.savepoints with
    | some l =>
      { db with tx := some { t with writes := t.writes.take l,
                                    savepoints := removeSp name t.savepoints },
                spClosed := db.spClosed + 1 }
    | none => db
  | none => db

/-- Modelled from the spec: deterministic savepoint name derived from the
per-transaction counter. -/
def spName (n : Nat) : String := "sp_" ++ toString n

/-- A unit of work: receives the (possibly updated) carrier and the
database state, returns the new state and success or a failure. -/
def Work : Type := Carrier → Db → Db × Option Failure

/-- Modelled from the spec: the close step of a frame owning a brand-new
transaction — commit on success (surfacing a commit failure); on a failure
not yet handled by an inner savepoint rollback, roll back and propagate the
original failure unchanged, composing it with the rollback error when the
rollback itself also fails; on an already-handled failure, commit what the
inner rollback-to-savepoint left and still propagate the failure. -/
def closeNewTxFrame (r : Db × Option Failure) : Db × Option Failure :=
  match r with
  | (db1, none) =>
    match commitTx db1 with
    | (db2, none) => (db2, none)
    | (db2, some m) => (db2, some ⟨TxErr.commitFailed m, false⟩)
  | (db1, some f) =>
    if f.handled then
      match commitTx db1 with
      | (db2, none) => (db2, some f)
      | (db2, some m) => (db2, some ⟨TxErr.combined f.err m, false⟩)
    else
      match rollbackTx db1 with
      | (db2, none) => (db2, some f)
      | (db2, some m) => (db2, some ⟨TxErr.combined f.err m, false⟩)

/-- Modelled from the spec: the close step of a frame owning a savepoint —
release the savepoint on success; on a failure not yet handled, roll back
to the savepoint only and propagate the original error marked as handled;
on an already-handled failure, release the savepoint and pass the failure
through. -/
def closeSavepointFrame (name : String) (r : Db × Option Failure) : Db × Option Failure :=
  match r with
  | (db1, none) => (releaseSavepoint name db1, none)
  | (db1, some f) =>
    if f.handled then (releaseSavepoint name db1, some f)
    else (rollbackToSavepoint name db1, some ⟨f.err, true⟩)

/-- Modelled from the spec: the carrier passed to `work` by a frame that
owns a savepoint — same handle as the enclosing binding, depth increased by
one, the savepoint name pushed on the stack. -/
def savepointInnerCarrier (c : Carrier) (name : String) : Carrier :=
  match c.binding with
  | some b => ⟨some ⟨b.handle, b.depth + 1, name :: b.savepointStack⟩⟩
  | none => c

/-- Modelled from the spec: `RunWithPropagation(carrier, policy, work)`,
following the specification's decision table. With no active binding:
`Mandatory` fails immediately with `NoActiveTransaction` without invoking
`work`; `Join` and `Savepoint` begin a new transaction, bind it to the
carrier and own it. With an active binding: `Join` and `Mandatory` are
borrowers passing the carrier through unchanged and never closing the
handle; `Savepoint` creates a named savepoint in the existing handle and
owns that boundary. -/
def runWithPropagation (c : Carrier) (p : Policy) (work : Work) (db : Db) :
    Db × Option Failure :=
  match c.binding with
  | none =>
    match p with
    | Policy.mandatory => (db, some ⟨TxErr.noActiveTransaction, false⟩)
    | _ =>
      closeNewTxFrame (work ⟨some ⟨db.nextHandle, 0, []⟩⟩ (beginTransaction db))
  | some _ =>
    match p with
    | Policy.savepoint =>
      match db.tx with
      | some t =>
        closeSavepointFrame (spName t.spCounter)
          (work (savepointInnerCarrier c (spName t.spCounter))
            (beginSavepoint (spName t.spCounter) db))
      | none => (db, some ⟨TxErr.noActiveTransaction, false⟩)
    | _ => work c db

/-- Modelled from the spec: the convenience `Run(carrier, work)`, defaulting
to the `Join` policy. -/
def run (c : Carrier) (work : Work) (db : Db) : Db × Option Failure :=
  runWithPropagation c Policy.join work db

/-- Syntax of units of work, used to quantify over all nestings: an insert,
a returned error, sequencing (which stops at the first error, as the test
file's work functions do), and a nested `RunWithPropagation` frame. -/
inductive Prog where
  | skip
  | insert (n : Nat)
  | failWith (msg : String)
  | seq (a b : Prog)
  | nest (p : Policy) (body : Prog)
deriving DecidableEq

/-- Semantics of `Prog` as a unit of work. -/
def execProg : Prog → Work
  | Prog.skip => fun _ db => (db, none)
  | Prog.insert n => fun _ db => (insertRow n db, none)
  | Prog.failWith m => fun _ db => (db, some ⟨TxErr.work m, false⟩)
  | Prog.seq a b => fun c db =>
    match execProg a c db with
    | (db1, none) => execProg b c db1
    | (db1, some e) => (db1, some e)
  | Prog.nest p body => fun c db => runWithPropagation c p (execProg body) db

/-- Predicate: `true` when every nested frame of the program uses the `Join` policy. -/
def joinOnly : Prog → Bool
  | Prog.skip => true
  | Prog.insert _ => true
  | Prog.failWith _ => true
  | Prog.seq a b => joinOnly a && joinOnly b
  | Prog.nest p body => (p = Policy.join : Bool) && joinOnly body

/-- State of a database after some savepoint bookkeeping inside one open
transaction: same committed rows, counters and flags, the given transaction
state, and the savepoint created/closed counters advanced by the given
amounts. -/
def spBump (db : Db) (a b : Nat) (t : TxState) : Db :=
  { db with tx := some t, spCreated := db.spCreated + a, spClosed := db.spClosed + b }

theorem spBump_self (db : Db) (t : TxState) (h : db.tx = some t) :
    spBump db 0 0 t = db := by
  cases db
  simp_all [spBump]

theorem spBump_spBump (db : Db) (a b a' b' : Nat) (t1 t2 : TxState) :
    spBump (spBump db a b t1) a' b' t2 = spBump db (a + a') (b + b') t2 := by
  simp [spBump, Nat.add_assoc]

theorem spBump_arg_eq (db : Db) (a b a' b' : Nat) (t : TxState)
    (h1 : a = a') (h2 : b = b') : spBump db a b t = spBump db a' b' t := by
  rw [h1, h2]

theorem releaseSavepoint_spBump (db : Db) (a b : Nat) (name : String) (l : Nat)
    (h : Nat) (ws : List Nat) (sps : List (String × Nat)) (spc : Nat) :
    releaseSavepoint name (spBump db a b ⟨h, ws, (name, l) :: sps, spc⟩)
      = spBump db a (b + 1) ⟨h, ws, sps, spc⟩ := by
  simp [releaseSavepoint, spBump, removeSp, Nat.add_assoc]

theorem rollbackToSavepoint_spBump (db : Db) (a b : Nat) (name : String)
    (h : Nat) (pre w : List Nat) (sps : List (String × Nat)) (spc : Nat) :
    rollbackToSavepoint name (spBump db a b ⟨h, pre ++ w, (name, pre.length) :: sps, spc⟩)
      = spBump db a (b + 1) ⟨h, pre, sps, spc⟩ := by
  simp [rollbackToSavepoint, spBump, findSp, removeSp, List.take_left, Nat.add_assoc]

/-- Preservation invariant: a program run as a unit of work under an active
transaction binding never touches the committed rows, never closes the
transaction (same handle, savepoint stack restored), only extends the
writes made before it, and closes exactly as many savepoints as it
creates. -/
theorem exec_preserves (p : Prog) :
    ∀ (c : Carrier) (db : Db) (bnd : Binding) (t : TxState),
      c.binding = some bnd → db.tx = some t →
      ∃ (w : List Nat) (spc k : Nat) (e : Option Failure),
        execProg p c db = (spBump db k k ⟨t.handle, t.writes ++ w, t.savepoints, spc⟩, e) := by
  induction p with
  | skip =>
    intro c db bnd t hc htx
    refine ⟨[], t.spCounter, 0, none, ?_⟩
    have h0 : spBump db 0 0 ⟨t.handle, t.writes, t.savepoints, t.spCounter⟩ = db :=
      spBump_self db t htx
    simp [execProg, h0]
  | insert n =>
    intro c db bnd t hc htx
    refine ⟨[n], t.spCounter, 0, none, ?_⟩
    cases db
    cases t
    simp_all [execProg, insertRow, spBump]
  | failWith m =>
    intro c db bnd t hc htx
    refine ⟨[], t.spCounter, 0, some ⟨TxErr.work m, false⟩, ?_⟩
    have h0 : spBump db 0 0 ⟨t.handle, t.writes, t.savepoints, t.spCounter⟩ = db :=
      spBump_self db t htx
    simp [execProg, h0]
  | seq a b iha ihb =>
    intro c db bnd t hc htx
    obtain ⟨w1, spc1, k1, e1, h1⟩ := iha c db bnd t hc htx
    cases e1 with
    | some f =>
      refine ⟨w1, spc1, k1, some f, ?_⟩
      simp [execProg, h1]
    | none =>
      have htx1 : (spBump db k1 k1 ⟨t.handle, t.writes ++ w1, t.savepoints, spc1⟩).tx
          = some ⟨t.handle, t.writes ++ w1, t.savepoints, spc1⟩ := rfl
      obtain ⟨w2, spc2, k2, e2, h2⟩ :=
        ihb c (spBump db k1 k1 ⟨t.handle, t.writes ++ w1, t.savepoints, spc1⟩) bnd
          ⟨t.handle, t.writes ++ w1, t.savepoints, spc1⟩ hc htx1
      refine ⟨w1 ++ w2, spc2, k1 + k2, e2, ?_⟩
      simp [execProg, h1, h2, spBump_spBump, List.append_assoc]
  | nest q body ih =>
    intro c db bnd t hc htx
    cases q with
    | join =>
      simpa [execProg, runWithPropagation, hc] using ih c db bnd t hc htx
    | mandatory =>
      simpa [execProg, runWithPropagation, hc] using ih c db bnd t hc htx
    | savepoint =>
      have hic : (savepointInnerCarrier c (spName t.spCounter)).binding
          = some ⟨bnd.handle, bnd.depth + 1, spName t.spCounter :: bnd.savepointStack⟩ := by
        simp [savepointInnerCarrier, hc]
      have hBsp : beginSavepoint (spName t.spCounter) db
          = spBump db 1 0 ⟨t.handle, t.writes, (spName t.spCounter, t.writes.length) :: t.savepoints, t.spCounter + 1⟩ := by
        cases db
        simp_all [beginSavepoint, spBump]
      have htx1 : (beginSavepoint (spName t.spCounter) db).tx
          = some ⟨t.handle, t.writes, (spName t.spCounter, t.writes.length) :: t.savepoints, t.spCounter + 1⟩ := by
        rw [hBsp]
        rfl
      obtain ⟨w, spc, k, eB, hB⟩ :=
        ih (savepointInnerCarrier c (spName t.spCounter))
          (beginSavepoint (spName t.spCounter) db) _ _ hic htx1
      rw [hBsp, spBump_spBump] at hB
      dsimp only at hB
      cases eB with
      | none =>
        refine ⟨w, spc, k + 1, none, ?_⟩
        simp only [execProg, runWithPropagation, hc, htx, hBsp, hB, closeSavepointFrame]
        rw [releaseSavepoint_spBump]
        exact congrArg (fun x => (x, (none : Option Failure)))
          (spBump_arg_eq _ _ _ _ _ _ (by omega) (by omega))
      | some f =>
        cases hf : f.handled with
        | true =>
          refine ⟨w, spc, k + 1, some f, ?_⟩
          simp only [execProg, runWithPropagation, hc, htx, hBsp, hB, closeSavepointFrame,
            hf, if_true]
          rw [releaseSavepoint_spBump]
          exact congrArg (fun x => (x, some f))
            (spBump_arg_eq _ _ _ _ _ _ (by omega) (by omega))
        | false =>
          refine ⟨[], spc, k + 1, some ⟨f.err, true⟩, ?_⟩
          simp only [execProg, runWithPropagation, hc, htx, hBsp, hB, closeSavepointFrame,
            hf, if_false, Bool.false_eq_true]
          rw [rollbackToSavepoint_spBump]
          have hnil : (t.writes : List Nat) = t.writes ++ [] := by simp
          rw [← hnil]
          exact congrArg (fun x => (x, some (⟨f.err, true⟩ : Failure)))
            (spBump_arg_eq _ _ _ _ _ _ (by omega) (by omega))

/-- In a program whose nested frames all use the `Join` policy, a failure
is never marked as handled: no savepoint frame exists to handle it. -/
theorem joinOnly_unhandled (p : Prog) :
    ∀ (c : Carrier) (db db' : Db) (f : Failure),
      joinOnly p = true → execProg p c db = (db', some f) → f.handled = false := by
  induction p with
  | skip =>
    intro c db db' f hj h
    simp [execProg] at h
  | insert n =>
    intro c db db' f hj h
    simp [execProg] at h
  | failWith m =>
    intro c db db' f hj h
    simp [execProg, Prod.ext_iff] at h
    rw [← h.2]
  | seq a b iha ihb =>
    intro c db db' f hj h
    simp [joinOnly, Bool.and_eq_true] at hj
    rcases h1 : execProg a c db with ⟨db1, e1⟩
    cases e1 with
    | some g =>
      simp only [execProg, h1, Prod.mk.injEq, Option.some.injEq] at h
      exact h.2 ▸ iha c db db1 g hj.1 h1
    | none =>
      simp only [execProg, h1] at h
      exact ihb c db1 db' f hj.2 h
  | nest q body ih =>
    intro c db db' f hj h
    simp [joinOnly, Bool.and_eq_true, decide_eq_true_eq] at hj
    obtain ⟨hq, hjb⟩ := hj
    subst hq
    cases hcb : c.binding with
    | some bnd =>
      simp only [execProg, runWithPropagation, hcb] at h
      exact ih c db db' f hjb h
    | none =>
      simp only [execProg, runWithPropagation, hcb] at h
      rcases hb : execProg body ⟨some ⟨db.nextHandle, 0, []⟩⟩ (beginTransaction db)
        with ⟨db1, e1⟩
      rw [hb] at h
      cases e1 with
      | none =>
        simp only [closeNewTxFrame] at h
        rcases h2 : commitTx db1 with ⟨db2, m⟩
        rw [h2] at h
        cases m with
        | none => simp at h
        | some msg =>
          simp only [Prod.mk.injEq, Option.some.injEq] at h
          rw [← h.2]
      | some g =>
        have hg : g.handled = false := ih _ _ _ _ hjb hb
        simp only [closeNewTxFrame, hg, Bool.false_eq_true, if_false] at h
        rcases h2 : rollbackTx db1 with ⟨db2, m⟩
        rw [h2] at h
        cases m with
        | none =>
          simp only [Prod.mk.injEq, Option.some.injEq] at h
          rw [← h.2]
          exact hg
        | some msg =>
          simp only [Prod.mk.injEq, Option.some.injEq] at h
          rw [← h.2]

/-- C1: in any nesting of `RunWithPropagation` with the `Join` policy inside
a `Join` frame on the same carrier, a borrower frame passes the carrier
through and propagates its work's result unchanged, and whenever the root
work of the tree fails, the single shared transaction is rolled back by the
root owner — no write made anywhere in the tree reaches the committed rows —
and that same failure is returned to the outermost caller. -/
theorem join_in_join_failure_rolls_back_all (p : Prog) (db dbW : Db) (f : Failure)
    (hj : joinOnly p = true) (htx : db.tx = none) (hr : db.failRollback = false)
    (hwork : execProg p ⟨some ⟨db.nextHandle, 0, []⟩⟩ (beginTransaction db) = (dbW, some f)) :
    (∀ (work : Work) (c : Carrier) (bnd : Binding) (db' : Db), c.binding = some bnd →
      runWithPropagation c Policy.join work db' = work c db')
    ∧ ∃ k, runWithPropagation ⟨none⟩ Policy.join (execProg p) db
      = ({ db with tx := none, nextHandle := db.nextHandle + 1, rollbacks := db.rollbacks + 1, spCreated := db.spCreated + k, spClosed := db.spClosed + k }, some f) := by
  constructor
  · intro work c bnd db' hcb
    simp [runWithPropagation, hcb]
  · obtain ⟨w, spc, k, e, hE⟩ :=
      exec_preserves p ⟨some ⟨db.nextHandle, 0, []⟩⟩ (beginTransaction db)
        ⟨db.nextHandle, 0, []⟩ ⟨db.nextHandle, [], [], 0⟩ rfl rfl
    rw [hwork] at hE
    have hdbW : dbW = spBump (beginTransaction db) k k ⟨db.nextHandle, [] ++ w, [], spc⟩ :=
      congrArg Prod.fst hE
    have he : (some f : Option Failure) = e := congrArg Prod.snd hE
    have hf : f.handled = false := joinOnly_unhandled p _ _ _ f hj hwork
    refine ⟨k, ?_⟩
    have hrun : runWithPropagation ⟨none⟩ Policy.join (execProg p) db
        = closeNewTxFrame (execProg p ⟨some ⟨db.nextHandle, 0, []⟩⟩ (beginTransaction db)) := rfl
    rw [hrun, hwork, hdbW]
    simp only [closeNewTxFrame, hf, Bool.false_eq_true, if_false]
    have hrb : rollbackTx (spBump (beginTransaction db) k k ⟨db.nextHandle, [] ++ w, [], spc⟩)
        = ({ db with tx := none, nextHandle := db.nextHandle + 1, rollbacks := db.rollbacks + 1, spCreated := db.spCreated + k, spClosed := db.spClosed + k }, none) := by
      simp [rollbackTx, spBump, beginTransaction, hr]
    rw [hrb]

/-- C5: running any program of nested frames from a carrier with no active
binding under the `Join` policy performs exactly one close operation
(commit or rollback) on the single physical transaction, and closes exactly
as many savepoints as were created; in particular a `Join` frame nested
inside a succeeding `Join` frame commits exactly once, at the outermost
owner, with both frames' writes visible. -/
theorem single_close_per_transaction (p : Prog) (db : Db) (htx : db.tx = none)
    (hc : db.failCommit = false) (hr : db.failRollback = false) :
    ((runWithPropagation ⟨none⟩ Policy.join (execProg p) db).1.commits
        + (runWithPropagation ⟨none⟩ Policy.join (execProg p) db).1.rollbacks
      = db.commits + db.rollbacks + 1)
    ∧ ((runWithPropagation ⟨none⟩ Policy.join (execProg p) db).1.spClosed - db.spClosed
      = (runWithPropagation ⟨none⟩ Policy.join (execProg p) db).1.spCreated - db.spCreated)
    ∧ ∀ a b : Nat,
        runWithPropagation ⟨none⟩ Policy.join
            (execProg (Prog.seq (Prog.insert a) (Prog.nest Policy.join (Prog.insert b)))) db
          = ({ db with committed := db.committed ++ [a, b], tx := none, nextHandle := db.nextHandle + 1, commits := db.commits + 1 }, none) := by
  obtain ⟨w, spc, k, e, hE⟩ :=
    exec_preserves p ⟨some ⟨db.nextHandle, 0, []⟩⟩ (beginTransaction db)
      ⟨db.nextHandle, 0, []⟩ ⟨db.nextHandle, [], [], 0⟩ rfl rfl
  have hrun : runWithPropagation ⟨none⟩ Policy.join (execProg p) db
      = closeNewTxFrame (execProg p ⟨some ⟨db.nextHandle, 0, []⟩⟩ (beginTransaction db)) := rfl
  have hfirst : (runWithPropagation ⟨none⟩ Policy.join (execProg p) db).1.commits
        + (runWithPropagation ⟨none⟩ Policy.join (execProg p) db).1.rollbacks
        = db.commits + db.rollbacks + 1
      ∧ (runWithPropagation ⟨none⟩ Policy.join (execProg p) db).1.spClosed - db.spClosed
        = (runWithPropagation ⟨none⟩ Policy.join (execProg p) db).1.spCreated - db.spCreated := by
    rw [hrun, hE]
    cases e with
    | none =>
      have hcm : commitTx (spBump (beginTransaction db) k k ⟨db.nextHandle, [] ++ w, [], spc⟩)
          = ({ db with committed := db.committed ++ ([] ++ w), tx := none, nextHandle := db.nextHandle + 1, commits := db.commits + 1, spCreated := db.spCreated + k, spClosed := db.spClosed + k }, none) := by
        simp [commitTx, spBump, beginTransaction, hc]
      simp only [closeNewTxFrame, hcm]
      constructor
      · omega
      · simp
    | some f =>
      cases hf : f.handled with
      | true =>
        have hcm : commitTx (spBump (beginTransaction db) k k ⟨db.nextHandle, [] ++ w, [], spc⟩)
            = ({ db with committed := db.committed ++ ([] ++ w), tx := none, nextHandle := db.nextHandle + 1, commits := db.commits + 1, spCreated := db.spCreated + k, spClosed := db.spClosed + k }, none) := by
          simp [commitTx, spBump, beginTransaction, hc]
        simp only [closeNewTxFrame, hf, if_true, hcm]
        constructor
        · omega
        · simp
      | false =>
        have hrb : rollbackTx (spBump (beginTransaction db) k k ⟨db.nextHandle, [] ++ w, [], spc⟩)
            = ({ db with tx := none, nextHandle := db.nextHandle + 1, rollbacks := db.rollbacks + 1, spCreated := db.spCreated + k, spClosed := db.spClosed + k }, none) := by
          simp [rollbackTx, spBump, beginTransaction, hr]
        simp only [closeNewTxFrame, hf, Bool.false_eq_true, if_false, hrb]
        constructor
        · omega
        · simp
  refine ⟨hfirst.1, hfirst.2, ?_⟩
  intro a b
  obtain ⟨com, tx, nh, cm, rb, sc, scl, fc, fr⟩ := db
  simp only at htx hc hr
  subst htx hc hr
  rfl

/-- C2: when an inner `Savepoint` frame runs inside an active transaction
and its work fails, the writes made before entering the frame by the
enclosing transaction survive exactly, the enclosing transaction remains
open (same handle, savepoint stack restored, nothing committed or rolled
back at the transaction level), and the original error cause still
propagates to the caller; when the failure is a fresh one (not already
handled deeper inside), the rollback-to-savepoint discards every write made
inside the frame. -/
theorem savepoint_frame_failure_discards_frame_writes (body : Prog) (c : Carrier)
    (bnd : Binding) (t : TxState) (db dbW : Db) (f : Failure)
    (hc : c.binding = some bnd) (htx : db.tx = some t)
    (hwork : execProg body (savepointInnerCarrier c (spName t.spCounter))
        (beginSavepoint (spName t.spCounter) db) = (dbW, some f)) :
    ∃ spc k w,
      runWithPropagation c Policy.savepoint (execProg body) db
        = (spBump db (k + 1) (k + 1) ⟨t.handle, t.writes ++ w, t.savepoints, spc⟩, some ⟨f.err, true⟩)
      ∧ (f.handled = false → w = []) := by
  have hic : (savepointInnerCarrier c (spName t.spCounter)).binding
      = some ⟨bnd.handle, bnd.depth + 1, spName t.spCounter :: bnd.savepointStack⟩ := by
    simp [savepointInnerCarrier, hc]
  have hBsp : beginSavepoint (spName t.spCounter) db
      = spBump db 1 0 ⟨t.handle, t.writes, (spName t.spCounter, t.writes.length) :: t.savepoints, t.spCounter + 1⟩ := by
    cases db
    simp_all [beginSavepoint, spBump]
  have htx1 : (beginSavepoint (spName t.spCounter) db).tx
      = some ⟨t.handle, t.writes, (spName t.spCounter, t.writes.length) :: t.savepoints, t.spCounter + 1⟩ := by
    rw [hBsp]
    rfl
  obtain ⟨w, spc, k, e, hE⟩ :=
    exec_preserves body (savepointInnerCarrier c (spName t.spCounter))
      (beginSavepoint (spName t.spCounter) db) _ _ hic htx1
  rw [hwork] at hE
  have hdbW : dbW = spBump (beginSavepoint (spName t.spCounter) db) k k
      ⟨t.handle, t.writes ++ w, (spName t.spCounter, t.writes.length) :: t.savepoints, spc⟩ := by
    have h1 := congrArg Prod.fst hE
    simpa using h1
  have hrun : runWithPropagation c Policy.savepoint (execProg body) db
      = closeSavepointFrame (spName t.spCounter)
          (execProg body (savepointInnerCarrier c (spName t.spCounter))
            (beginSavepoint (spName t.spCounter) db)) := by
    simp [runWithPropagation, hc, htx]
  cases hf : f.handled with
  | false =>
    refine ⟨spc, k, [], ?_, fun _ => rfl⟩
    rw [hrun, hwork, hdbW, hBsp, spBump_spBump]
    simp only [closeSavepointFrame, hf, Bool.false_eq_true, if_false]
    rw [rollbackToSavepoint_spBump]
    rw [show (t.writes : List Nat) ++ [] = t.writes from by simp]
    exact congrArg (fun x => (x, some (⟨f.err, true⟩ : Failure)))
      (spBump_arg_eq _ _ _ _ _ _ (by omega) (by omega))
  | true =>
    refine ⟨spc, k, w, ?_, fun hcon => by simp [hf] at hcon⟩
    have hfeta : f = ⟨f.err, true⟩ := by
      cases f with
      | mk e h => simp only at hf; rw [hf]
    rw [hrun, hwork, hdbW, hBsp, spBump_spBump]
    simp only [closeSavepointFrame, hf, if_true]
    rw [releaseSavepoint_spBump, ← hfeta]
    exact congrArg (fun x => (x, some f))
      (spBump_arg_eq _ _ _ _ _ _ (by omega) (by omega))

/-- C3: with no active transaction binding, the `Mandatory` policy fails
with `NoActiveTransaction`, leaves the database untouched for every unit of
work (so `work` is never invoked); with an active binding, `Mandatory` is
exactly the `Join` borrower path. -/
theorem mandatory_requires_active_binding (work : Work) (db : Db) :
    (∀ c : Carrier, c.binding = none →
      runWithPropagation c Policy.mandatory work db
        = (db, some ⟨TxErr.noActiveTransaction, false⟩))
    ∧ (∀ (c : Carrier) (bnd : Binding), c.binding = some bnd →
      runWithPropagation c Policy.mandatory work db
        = runWithPropagation c Policy.join work db) := by
  constructor
  · intro c hcb
    simp [runWithPropagation, hcb]
  · intro c bnd hcb
    simp [runWithPropagation, hcb]

/-- C4: with no active transaction binding, the `Savepoint` policy is
exactly the `Join` policy for every unit of work; in particular it begins
and owns a new physical transaction, committing it on success (the writes
become visible) and rolling it back on an ordinary failure (no writes
become visible). -/
theorem savepoint_without_binding_like_join (work : Work) (db : Db) (c : Carrier)
    (hcb : c.binding = none) :
    runWithPropagation c Policy.savepoint work db
        = runWithPropagation c Policy.join work db
    ∧ (db.tx = none → db.failCommit = false → ∀ a : Nat,
        runWithPropagation c Policy.savepoint (execProg (Prog.insert a)) db
          = ({ db with committed := db.committed ++ [a], tx := none, nextHandle := db.nextHandle + 1, commits := db.commits + 1 }, none))
    ∧ (db.tx = none → db.failRollback = false → ∀ (a : Nat) (m : String),
        runWithPropagation c Policy.savepoint
            (execProg (Prog.seq (Prog.insert a) (Prog.failWith m))) db
          = ({ db with tx := none, nextHandle := db.nextHandle + 1, rollbacks := db.rollbacks + 1 }, some ⟨TxErr.work m, false⟩)) := by
  refine ⟨by simp [runWithPropagation, hcb], ?_, ?_⟩
  · intro htx hfc a
    obtain ⟨com, tx, nh, cm, rb, sc, scl, fc, fr⟩ := db
    simp only at htx hfc
    subst htx hfc
    obtain ⟨cb⟩ := c
    simp only at hcb
    subst hcb
    rfl
  · intro htx hfr a m
    obtain ⟨com, tx, nh, cm, rb, sc, scl, fc, fr⟩ := db
    simp only at htx hfr
    subst htx hfr
    obtain ⟨cb⟩ := c
    simp only at hcb
    subst hcb
    rfl

/-- C6 (amended): a frame that owns a brand-new transaction, whose work
fails with an error not already handled by an inner rollback-to-savepoint,
rolls the transaction back and returns the work's failure unchanged; only
when the rollback itself also fails does it return a combined error
carrying both the work error and the rollback failure. -/
theorem owner_failure_rollback_reporting (work : Work) (c : Carrier)
    (db db1 : Db) (t1 : TxState) (f : Failure)
    (hcb : c.binding = none) (hf : f.handled = false)
    (hwork : work ⟨some ⟨db.nextHandle, 0, []⟩⟩ (beginTransaction db) = (db1, some f))
    (htx1 : db1.tx = some t1) :
    (db1.failRollback = false →
      runWithPropagation c Policy.join work db
        = ({ db1 with tx := none, rollbacks := db1.rollbacks + 1 }, some f))
    ∧ (db1.failRollback = true →
      runWithPropagation c Policy.join work db
        = (db1, some ⟨TxErr.combined f.err "rollback failed", false⟩)) := by
  have hrun : runWithPropagation c Policy.join work db
      = closeNewTxFrame (work ⟨some ⟨db.nextHandle, 0, []⟩⟩ (beginTransaction db)) := by
    simp [runWithPropagation, hcb]
  constructor
  · intro hr
    rw [hrun, hwork]
    simp only [closeNewTxFrame, hf, Bool.false_eq_true, if_false]
    have hrb : rollbackTx db1 = ({ db1 with tx := none, rollbacks := db1.rollbacks + 1 }, none) := by
      simp [rollbackTx, hr, htx1]
    rw [hrb]
  · intro hr
    rw [hrun, hwork]
    simp only [closeNewTxFrame, hf, Bool.false_eq_true, if_false]
    have hrb : rollbackTx db1 = (db1, some "rollback failed") := by
      simp [rollbackTx, hr]
    rw [hrb]

/-- C6 counterexample to the unamended claim: a root `Join` frame owns a
brand-new transaction and its work returns a non-nil error (the failure of
a nested savepoint frame); yet the engine does not roll the transaction
back and does not return that error via the rollback path — it commits the
surviving write, because the failure was already handled by the inner
rollback-to-savepoint. -/
theorem owner_failure_commit_when_handled :
    (execProg (Prog.seq (Prog.insert 1) (Prog.nest Policy.savepoint (Prog.failWith "ko")))
        ⟨some ⟨0, 0, []⟩⟩ (beginTransaction ⟨[], none, 0, 0, 0, 0, 0, false, false⟩)).2
      = some ⟨TxErr.work "ko", true⟩
    ∧ runWithPropagation ⟨none⟩ Policy.join
        (execProg (Prog.seq (Prog.insert 1) (Prog.nest Policy.savepoint (Prog.failWith "ko"))))
        ⟨[], none, 0, 0, 0, 0, 0, false, false⟩
      = (⟨[1], none, 1, 1, 0, 1, 1, false, false⟩, some ⟨TxErr.work "ko", true⟩) := by
  constructor
  · rfl
  · rfl

/-- C7: the convenience operation `Run` is definitionally
`RunWithPropagation` with the `Join` policy: same result and same
transaction effects on every carrier, unit of work and database state. -/
theorem run_defaults_to_join (c : Carrier) (work : Work) (db : Db) :
    run c work db = runWithPropagation c Policy.join work db := rfl

/-- C8: a `Savepoint` frame entered while a transaction is active invokes
its work on exactly the carrier whose binding keeps the enclosing binding's
transaction handle and differs only in the bookkeeping fields: depth
increased by one and the new savepoint name pushed on the stack. -/
theorem savepoint_inner_carrier_same_handle (c : Carrier) (bnd : Binding)
    (t : TxState) (db : Db) (work : Work)
    (hc : c.binding = some bnd) (htx : db.tx = some t) :
    (savepointInnerCarrier c (spName t.spCounter)).binding
        = some ⟨bnd.handle, bnd.depth + 1, spName t.spCounter :: bnd.savepointStack⟩
    ∧ runWithPropagation c Policy.savepoint work db
        = closeSavepointFrame (spName t.spCounter)
            (work (savepointInnerCarrier c (spName t.spCounter))
              (beginSavepoint (spName t.spCounter) db)) := by
  constructor
  · simp [savepointInnerCarrier, hc]
  · simp [runWithPropagation, hc, htx]

/-- C1 witness: a concrete `Join`-inside-`Join` tree whose inner frame
fails after both frames inserted a row; everything is rolled back and the
inner error reaches the outermost caller. -/
theorem join_in_join_failure_rolls_back_all_witness :
    joinOnly (Prog.seq (Prog.insert 1) (Prog.nest Policy.join (Prog.seq (Prog.insert 2) (Prog.failWith "ko")))) = true
    ∧ ((∀ (work : Work) (c : Carrier) (bnd : Binding) (db' : Db), c.binding = some bnd →
          runWithPropagation c Policy.join work db' = work c db')
      ∧ ∃ k, runWithPropagation ⟨none⟩ Policy.join
            (execProg (Prog.seq (Prog.insert 1) (Prog.nest Policy.join (Prog.seq (Prog.insert 2) (Prog.failWith "ko")))))
            ⟨[], none, 0, 0, 0, 0, 0, false, false⟩
          = (⟨[], none, 1, 0, 1, 0 + k, 0 + k, false, false⟩, some ⟨TxErr.work "ko", false⟩)) :=
  ⟨by decide,
    join_in_join_failure_rolls_back_all
      (Prog.seq (Prog.insert 1) (Prog.nest Policy.join (Prog.seq (Prog.insert 2) (Prog.failWith "ko"))))
      ⟨[], none, 0, 0, 0, 0, 0, false, false⟩
      ⟨[], some ⟨0, [1, 2], [], 0⟩, 1, 0, 0, 0, 0, false, false⟩
      ⟨TxErr.work "ko", false⟩ (by decide) rfl rfl (by decide)⟩

/-- C5 witness: the concrete `Join`-inside-`Join` success scenario commits
exactly once, at the outermost owner, with both writes visible. -/
theorem single_close_per_transaction_witness :
    runWithPropagation ⟨none⟩ Policy.join
        (execProg (Prog.seq (Prog.insert 1) (Prog.nest Policy.join (Prog.insert 2))))
        ⟨[], none, 0, 0, 0, 0, 0, false, false⟩
      = (⟨[1, 2], none, 1, 1, 0, 0, 0, false, false⟩, none) :=
  (single_close_per_transaction (Prog.seq (Prog.insert 1) (Prog.nest Policy.join (Prog.insert 2)))
    ⟨[], none, 0, 0, 0, 0, 0, false, false⟩ rfl rfl rfl).2.2 1 2

/-- C2 witness: a concrete failing `Savepoint` frame inside an open
transaction that already wrote one row; the prior row survives, the
transaction stays open and the error propagates. -/
theorem savepoint_frame_failure_discards_frame_writes_witness :
    ∃ spc k w,
      (runWithPropagation ⟨some ⟨0, 0, []⟩⟩ Policy.savepoint
          (execProg (Prog.seq (Prog.insert 2) (Prog.failWith "ko")))
          ⟨[], some ⟨0, [1], [], 0⟩, 1, 0, 0, 0, 0, false, false⟩
        = (spBump ⟨[], some ⟨0, [1], [], 0⟩, 1, 0, 0, 0, 0, false, false⟩ (k + 1) (k + 1) ⟨0, [1] ++ w, [], spc⟩, some ⟨TxErr.work "ko", true⟩))
      ∧ ((⟨TxErr.work "ko", false⟩ : Failure).handled = false → w = []) :=
  savepoint_frame_failure_discards_frame_writes (Prog.seq (Prog.insert 2) (Prog.failWith "ko"))
    ⟨some ⟨0, 0, []⟩⟩ ⟨0, 0, []⟩ ⟨0, [1], [], 0⟩
    ⟨[], some ⟨0, [1], [], 0⟩, 1, 0, 0, 0, 0, false, false⟩
    ⟨[], some ⟨0, [1, 2], [("sp_0", 1)], 1⟩, 1, 0, 0, 1, 0, false, false⟩
    ⟨TxErr.work "ko", false⟩ rfl rfl (by decide)

/-- C3 witness: `Mandatory` on a carrier with no binding fails with
`NoActiveTransaction` and performs no write even for a work that would
insert a row. -/
theorem mandatory_requires_active_binding_witness :
    runWithPropagation ⟨none⟩ Policy.mandatory (fun _ db => (insertRow 5 db, none))
        ⟨[], none, 0, 0, 0, 0, 0, false, false⟩
      = (⟨[], none, 0, 0, 0, 0, 0, false, false⟩, some ⟨TxErr.noActiveTransaction, false⟩) :=
  (mandatory_requires_active_binding (fun _ db => (insertRow 5 db, none))
    ⟨[], none, 0, 0, 0, 0, 0, false, false⟩).1 ⟨none⟩ rfl

/-- C4 witness: `Savepoint` at the root (no binding) begins, owns and
commits a new transaction whose write becomes visible. -/
theorem savepoint_without_binding_like_join_witness :
    runWithPropagation ⟨none⟩ Policy.savepoint (execProg (Prog.insert 7))
        ⟨[], none, 0, 0, 0, 0, 0, false, false⟩
      = (⟨[7], none, 1, 1, 0, 0, 0, false, false⟩, none) :=
  (savepoint_without_binding_like_join (execProg (Prog.insert 7))
    ⟨[], none, 0, 0, 0, 0, 0, false, false⟩ ⟨none⟩ rfl).2.1 rfl rfl 7

/-- C6 witness: an owner frame whose work inserts a row and fails rolls the
new transaction back and returns the work's error unchanged. -/
theorem owner_failure_rollback_reporting_witness :
    runWithPropagation ⟨none⟩ Policy.join
        (execProg (Prog.seq (Prog.insert 1) (Prog.failWith "ko")))
        ⟨[], none, 0, 0, 0, 0, 0, false, false⟩
      = (⟨[], none, 1, 0, 1, 0, 0, false, false⟩, some ⟨TxErr.work "ko", false⟩) :=
  (owner_failure_rollback_reporting (execProg (Prog.seq (Prog.insert 1) (Prog.failWith "ko")))
    ⟨none⟩ ⟨[], none, 0, 0, 0, 0, 0, false, false⟩
    ⟨[], some ⟨0, [1], [], 0⟩, 1, 0, 0, 0, 0, false, false⟩
    ⟨0, [1], [], 0⟩ ⟨TxErr.work "ko", false⟩ rfl rfl (by decide) rfl).1 rfl

/-- C8 witness: the carrier passed to the work of a concrete `Savepoint`
frame keeps the enclosing handle and only gains depth and a pushed
savepoint name. -/
theorem savepoint_inner_carrier_same_handle_witness :
    (savepointInnerCarrier ⟨some ⟨0, 0, []⟩⟩ (spName 0)).binding = some ⟨0, 0 + 1, spName 0 :: []⟩
    ∧ runWithPropagation ⟨some ⟨0, 0, []⟩⟩ Policy.savepoint (fun _ db => (db, none))
          ⟨[], some ⟨0, [1], [], 0⟩, 1, 0, 0, 0, 0, false, false⟩
        = closeSavepointFrame (spName 0)
            ((fun _ db => (db, none)) (savepointInnerCarrier ⟨some ⟨0, 0, []⟩⟩ (spName 0))
              (beginSavepoint (spName 0) ⟨[], some ⟨0, [1], [], 0⟩, 1, 0, 0, 0, 0, false, false⟩)) :=
  savepoint_inner_carrier_same_handle ⟨some ⟨0, 0, []⟩⟩ ⟨0, 0, []⟩ ⟨0, [1], [], 0⟩
    ⟨[], some ⟨0, [1], [], 0⟩, 1, 0, 0, 0, 0, false, false⟩ (fun _ db => (db, none)) rfl rfl

end Transactional

namespace Pgrest

/-- C9: the action constants `None`, `Get`, `Post`, `Put`, `Patch`,
`Delete` and `All` are pairwise distinct, `All` is the sum of the five
individual action flags, and each individual action is contained in `All`
under the additive flag encoding. -/
theorem action_flags_distinct_and_additive :
    [None, Get, Post, Put, Patch, Delete, All].Pairwise (fun x y => x ≠ y)
    ∧ All = Get + Post + Put + Patch + Delete
    ∧ Get &&& All = Get
    ∧ Post &&& All = Post
    ∧ Put &&& All = Put
    ∧ Patch &&& All = Patch
    ∧ Delete &&& All = Delete := by
  decide

/-- C10: two `RestQuery` values agreeing on `Action`, `Resource`, `Fields`
and a non-empty `Key` render to the same string whatever their `Offset`,
`Limit`, `Sorts` (and `Body`) are; and with an empty `Key` the rendered
string is the offset/limit/fields/sorts form, which does not use the
`Key`. -/
theorem restQuery_string_key_independence :
    (∀ q1 q2 : RestQuery, q1.Action = q2.Action → q1.Resource = q2.Resource →
      q1.Fields = q2.Fields → q1.Key = q2.Key → q1.Key ≠ "" →
      RestQuery.string q1 = RestQuery.string q2)
    ∧ (∀ q : RestQuery, q.Key = "" →
      RestQuery.string q
        = toString q.Action ++ ": " ++ q.Resource ++ " offset=" ++ toString q.Offset ++ " limit=" ++ toString q.Limit ++ " fields=" ++ sliceRepr (q.Fields.map fieldRepr) ++ " sorts=" ++ sliceRepr (q.Sorts.map sortRepr)) := by
  constructor
  · intro q1 q2 hA hR hF hK hne
    have hne2 : q2.Key ≠ "" := hK ▸ hne
    simp only [RestQuery.string, hA, hR, hF, hK]
    rw [if_pos hne2, if_pos hne2]
  · intro q hq
    simp [RestQuery.string, hq]

/-- C10 witness: two concrete keyed queries differing only in `Body`,
`Offset`, `Limit` and `Sorts` render identically. -/
theorem restQuery_string_key_independence_witness :
    RestQuery.string ⟨Get, "todo", "k1", "", 0, 10, [⟨"a"⟩], []⟩
      = RestQuery.string ⟨Get, "todo", "k1", "body", 5, 20, [⟨"a"⟩], [⟨"n", true⟩]⟩ :=
  restQuery_string_key_independence.1
    ⟨Get, "todo", "k1", "", 0, 10, [⟨"a"⟩], []⟩
    ⟨Get, "todo", "k1", "body", 5, 20, [⟨"a"⟩], [⟨"n", true⟩]⟩
    rfl rfl rfl rfl (by decide)

end Pgrest

